import Mathlib

/-!
Verification of `power_law_approx.py` (CKRIS repository): a straight-line
script that computes the power-law (S-system) approximation of two Hill-type
kinetic rate laws (v29 and v33 of the Brännmark et al. insulin signaling
model).  The script builds each rate expression symbolically, differentiates
it, substitutes a fixed reference point, computes the elasticities
(derivative * variable / rate) as power-law exponents, and back-solves a new
rate constant.  We embed the computation over the reals: `x ^ y` with real
exponent is `Real.rpow`, and the symbolic differentiation-then-substitution
performed by the algebra library is embedded as Mathlib's `deriv` of the
rate function evaluated at the reference point.
-/

noncomputable section

namespace PowerLawApprox

/-! ### Reference values

Numeric literals from the `subs` lists (script lines 49-57).  Every literal
is the exact decimal rational it denotes. -/

def k29v : ℝ := 36.93
def x28v : ℝ := 37.923
def n6v : ℝ := 2.137
def km6v : ℝ := 30.54
def x34v : ℝ := 29.576

def k33v : ℝ := 0.1298
def x36v : ℝ := 96.047
def x31v : ℝ := 78.791
def n9v : ℝ := 0.9855
def km9v : ℝ := 5873.0

/-- Numeric literal reassigned to `x28` after the symbolic phase (line 65). -/
def x28a : ℝ := 37.923

/-- Numeric literal reassigned to `x34` after the symbolic phase (line 66). -/
def x34a : ℝ := 29.576

/-- Numeric literal reassigned to `x36` after the symbolic phase (line 67). -/
def x36a : ℝ := 96.047

/-- Numeric literal reassigned to `x31` after the symbolic phase (line 68). -/
def x31a : ℝ := 78.791

/-! ### Original rate equations (script lines 36-37) -/

/-- `v29 = k29 * ((x28**n6)/(km6**n6 + x28**n6)) * x34`. -/
def v29expr (k29 x28 n6 km6 x34 : ℝ) : ℝ :=
  k29 * ((x28 ^ n6) / (km6 ^ n6 + x28 ^ n6)) * x34

/-- `v33 = k33 * x36 * ((x31**n9)/(km9**n9 + x31**n9))`. -/
def v33expr (k33 x36 x31 n9 km9 : ℝ) : ℝ :=
  k33 * x36 * ((x31 ^ n9) / (km9 ^ n9 + x31 ^ n9))

/-! ### Partial derivatives evaluated at the reference point

The script forms the symbolic partial derivative (`diff`, lines 40-44) and
then substitutes the reference values (lines 49-53); the result is the
mathematical derivative of the one-variable section of the rate function,
evaluated at the reference point. -/

def pv29x28 : ℝ := deriv (fun t : ℝ => v29expr k29v t n6v km6v x34v) x28v

def pv29x34 : ℝ := deriv (fun t : ℝ => v29expr k29v x28v n6v km6v t) x34v

def pv33x36 : ℝ := deriv (fun t : ℝ => v33expr k33v t x31v n9v km9v) x36v

def pv33x31 : ℝ := deriv (fun t : ℝ => v33expr k33v x36v t n9v km9v) x31v

/-! ### Original rates evaluated at the reference point (lines 56-57) -/

def v29 : ℝ := v29expr k29v x28v n6v km6v x34v

def v33 : ℝ := v33expr k33v x36v x31v n9v km9v

/-! ### Power-law exponents and new rate constants (lines 70-96) -/

/-- `p29 = pv29x28 * x28 / v29` (line 71). -/
def p29 : ℝ := pv29x28 * x28a / v29

/-- `q29 = pv29x34 * x34 / v29` (line 75). -/
def q29 : ℝ := pv29x34 * x34a / v29

/-- `p33 = pv33x36 * x36 / v33` (line 80). -/
def p33 : ℝ := pv33x36 * x36a / v33

/-- `q33 = pv33x31 * x31 / v33` (line 84). -/
def q33 : ℝ := pv33x31 * x31a / v33

/-- `k29p = v29 / (x28**p29 * x34**q29)` (line 89). -/
def k29p : ℝ := v29 / (x28a ^ p29 * x34a ^ q29)

/-- `k33p = v33 / (x36**p33 * x31**q33)` (line 94). -/
def k33p : ℝ := v33 / (x36a ^ p33 * x31a ^ q33)

/-! ### Output model

Each `print(x)` call writes `str(x)` followed by a newline to standard
output.  Splitting the resulting stream into lines: `print('p29 =')` yields
the single line `p29 =`; `print(p29)` yields one line holding the rendered
value (abstracted here as `OutLine.num`); `print('\n')` writes the two
characters `\n\n` and hence yields two empty lines. -/

/-- One line of standard output: either literal text or a rendered value. -/
inductive OutLine : Type
  | text : String → OutLine
  | num : ℝ → OutLine

/-- The lines the script writes to standard output, in program order
(script lines 70-97). -/
def stdout : List OutLine :=
  [.text "p29 =", .num p29, .text "", .text "",
   .text "q29 =", .num q29, .text "", .text "",
   .text "p33 =", .num p33, .text "", .text "",
   .text "q33 =", .num q33, .text "", .text "",
   .text "k29p =", .num k29p, .text "", .text "",
   .text "k33p =", .num k33p, .text "", .text ""]

/-- Modelled from the spec: an output block as the spec describes it — a
label line, the value, and a single blank line. -/
def specBlock (label : String) (v : ℝ) : List OutLine :=
  [.text label, .num v, .text ""]

/-- Modelled from the spec: the whole output as the spec describes it, six
single-blank-line blocks in order. -/
def specStdout : List OutLine :=
  specBlock "p29 =" p29 ++ specBlock "q29 =" q29 ++ specBlock "p33 =" p33 ++
    specBlock "q33 =" q33 ++ specBlock "k29p =" k29p ++ specBlock "k33p =" k33p

/-- An output block as the script actually produces it: a label line, the
value, and two blank lines (from `print('\n')`). -/
def srcBlock (label : String) (v : ℝ) : List OutLine :=
  [.text label, .num v, .text "", .text ""]

/-- A run of the script: it reads no command-line arguments, no environment
variables and no input stream, so the run function ignores its inputs and
returns the fixed output. -/
def runScript (_args : List String) (_env : String → Option String)
    (_input : List String) : List OutLine :=
  stdout

/-! ### General facts about the Hill term -/

/-- Derivative of the Hill saturation term `t ^ n / (km ^ n + t ^ n)`. -/
lemma hill_core_hasDerivAt (n km x : ℝ) (hx : x ≠ 0)
    (hd : km ^ n + x ^ n ≠ 0) :
    HasDerivAt (fun t : ℝ => t ^ n / (km ^ n + t ^ n))
      (n * x ^ (n - 1) * km ^ n / (km ^ n + x ^ n) ^ 2) x := by
  have h1 : HasDerivAt (fun t : ℝ => t ^ n) (n * x ^ (n - 1)) x :=
    Real.hasDerivAt_rpow_const (Or.inl hx)
  have h2 : HasDerivAt (fun t : ℝ => km ^ n + t ^ n) (0 + n * x ^ (n - 1)) x :=
    (hasDerivAt_const x (km ^ n)).add h1
  have h3 := h1.div h2 hd
  convert h3 using 1
  ring

/-- The Hill elasticity, in the association produced by v29 (constant `k` on
the left, linear factor `y` on the right): it simplifies to
`n * km ^ n / (km ^ n + x ^ n)`. -/
lemma hill_elasticity1 (k y n km x : ℝ) (hk : k ≠ 0) (hy : y ≠ 0)
    (hx : 0 < x) (hkm : 0 < km) :
    k * (n * x ^ (n - 1) * km ^ n / (km ^ n + x ^ n) ^ 2) * y * x
      / (k * (x ^ n / (km ^ n + x ^ n)) * y)
      = n * km ^ n / (km ^ n + x ^ n) := by
  have hxn : (0 : ℝ) < x ^ n := Real.rpow_pos_of_pos hx n
  have hkmn : (0 : ℝ) < km ^ n := Real.rpow_pos_of_pos hkm n
  have hD : (0 : ℝ) < km ^ n + x ^ n := by linarith
  have hx1 : x ^ (n - 1) = x ^ n / x := by
    rw [Real.rpow_sub hx, Real.rpow_one]
  rw [hx1]
  field_simp
  ring

/-- The Hill elasticity, in the association produced by v33 (one constant
factor `a` on the left of the Hill core). -/
lemma hill_elasticity2 (a n km x : ℝ) (ha : a ≠ 0) (hx : 0 < x) (hkm : 0 < km) :
    a * (n * x ^ (n - 1) * km ^ n / (km ^ n + x ^ n) ^ 2) * x
      / (a * (x ^ n / (km ^ n + x ^ n)))
      = n * km ^ n / (km ^ n + x ^ n) := by
  have hxn : (0 : ℝ) < x ^ n := Real.rpow_pos_of_pos hx n
  have hkmn : (0 : ℝ) < km ^ n := Real.rpow_pos_of_pos hkm n
  have hD : (0 : ℝ) < km ^ n + x ^ n := by linarith
  have hx1 : x ^ (n - 1) = x ^ n / x := by
    rw [Real.rpow_sub hx, Real.rpow_one]
  rw [hx1]
  field_simp
  ring

/-! ### Numeric positivity facts for the reference values -/

lemma k29v_pos : (0 : ℝ) < k29v := by unfold k29v; norm_num
lemma x28v_pos : (0 : ℝ) < x28v := by unfold x28v; norm_num
lemma km6v_pos : (0 : ℝ) < km6v := by unfold km6v; norm_num
lemma x34v_pos : (0 : ℝ) < x34v := by unfold x34v; norm_num
lemma k33v_pos : (0 : ℝ) < k33v := by unfold k33v; norm_num
lemma x36v_pos : (0 : ℝ) < x36v := by unfold x36v; norm_num
lemma x31v_pos : (0 : ℝ) < x31v := by unfold x31v; norm_num
lemma km9v_pos : (0 : ℝ) < km9v := by unfold km9v; norm_num
lemma n6v_pos : (0 : ℝ) < n6v := by unfold n6v; norm_num
lemma n9v_pos : (0 : ℝ) < n9v := by unfold n9v; norm_num

lemma hill6_den_pos : (0 : ℝ) < km6v ^ n6v + x28v ^ n6v :=
  add_pos (Real.rpow_pos_of_pos km6v_pos n6v) (Real.rpow_pos_of_pos x28v_pos n6v)

lemma hill9_den_pos : (0 : ℝ) < km9v ^ n9v + x31v ^ n9v :=
  add_pos (Real.rpow_pos_of_pos km9v_pos n9v) (Real.rpow_pos_of_pos x31v_pos n9v)

/-! ### Closed forms for the evaluated partial derivatives -/

/-- The evaluated partial derivative of v29 in x28 is the closed-form Hill
derivative times the constant factors. -/
lemma pv29x28_eq :
    pv29x28 = k29v * (n6v * x28v ^ (n6v - 1) * km6v ^ n6v
      / (km6v ^ n6v + x28v ^ n6v) ^ 2) * x34v := by
  have hcore := hill_core_hasDerivAt n6v km6v x28v x28v_pos.ne' hill6_den_pos.ne'
  have h := (hcore.const_mul k29v).mul_const x34v
  unfold pv29x28 v29expr
  exact h.deriv

/-- v29 is linear in x34: the evaluated partial derivative in x34 is the
constant factor. -/
lemma pv29x34_eq :
    pv29x34 = k29v * (x28v ^ n6v / (km6v ^ n6v + x28v ^ n6v)) * 1 := by
  have h := (hasDerivAt_id' (𝕜 := ℝ) (x := x34v)).const_mul
    (k29v * (x28v ^ n6v / (km6v ^ n6v + x28v ^ n6v)))
  unfold pv29x34 v29expr
  exact h.deriv

/-- v33 is linear in x36: the evaluated partial derivative in x36 is the
constant factor. -/
lemma pv33x36_eq :
    pv33x36 = k33v * 1 * (x31v ^ n9v / (km9v ^ n9v + x31v ^ n9v)) := by
  have h := ((hasDerivAt_id' (𝕜 := ℝ) (x := x36v)).const_mul k33v).mul_const
    (x31v ^ n9v / (km9v ^ n9v + x31v ^ n9v))
  unfold pv33x36 v33expr
  exact h.deriv

/-- The evaluated partial derivative of v33 in x31 is the closed-form Hill
derivative times the constant factors. -/
lemma pv33x31_eq :
    pv33x31 = k33v * x36v * (n9v * x31v ^ (n9v - 1) * km9v ^ n9v
      / (km9v ^ n9v + x31v ^ n9v) ^ 2) := by
  have hcore := hill_core_hasDerivAt n9v km9v x31v x31v_pos.ne' hill9_den_pos.ne'
  have h := hcore.const_mul (k33v * x36v)
  unfold pv33x31 v33expr
  exact h.deriv

/-! ### Positivity of the evaluated rates -/

lemma v29_pos : (0 : ℝ) < v29 := by
  have hxn := Real.rpow_pos_of_pos x28v_pos n6v
  unfold v29 v29expr
  exact mul_pos (mul_pos k29v_pos (div_pos hxn hill6_den_pos)) x34v_pos

lemma v33_pos : (0 : ℝ) < v33 := by
  have hxn := Real.rpow_pos_of_pos x31v_pos n9v
  unfold v33 v33expr
  exact mul_pos (mul_pos k33v_pos x36v_pos) (div_pos hxn hill9_den_pos)

lemma x28a_pos : (0 : ℝ) < x28a := by unfold x28a; norm_num
lemma x34a_pos : (0 : ℝ) < x34a := by unfold x34a; norm_num
lemma x36a_pos : (0 : ℝ) < x36a := by unfold x36a; norm_num
lemma x31a_pos : (0 : ℝ) < x31a := by unfold x31a; norm_num

/-! ### Closed forms for the exponents -/

/-- The computed exponent `p29` equals the closed-form Hill elasticity in
`x28`. -/
lemma p29_closed : p29 = n6v * km6v ^ n6v / (km6v ^ n6v + x28v ^ n6v) := by
  unfold p29
  rw [pv29x28_eq, show x28a = x28v from rfl]
  unfold v29 v29expr
  exact hill_elasticity1 k29v x34v n6v km6v x28v k29v_pos.ne' x34v_pos.ne'
    x28v_pos km6v_pos

/-- The computed exponent `q33` equals the closed-form Hill elasticity in
`x31`. -/
lemma q33_closed : q33 = n9v * km9v ^ n9v / (km9v ^ n9v + x31v ^ n9v) := by
  unfold q33
  rw [pv33x31_eq, show x31a = x31v from rfl]
  unfold v33 v33expr
  exact hill_elasticity2 (k33v * x36v) n9v km9v x31v
    (mul_ne_zero k33v_pos.ne' x36v_pos.ne') x31v_pos km9v_pos

/-- `q29 = 1`: v29 is linear in x34. -/
lemma q29_eq_one : q29 = 1 := by
  have hc : (0 : ℝ) < k29v * (x28v ^ n6v / (km6v ^ n6v + x28v ^ n6v)) :=
    mul_pos k29v_pos (div_pos (Real.rpow_pos_of_pos x28v_pos n6v) hill6_den_pos)
  unfold q29
  rw [pv29x34_eq, show x34a = x34v from rfl]
  unfold v29 v29expr
  rw [mul_one]
  exact div_self (mul_ne_zero hc.ne' x34v_pos.ne')

/-- `p33 = 1`: v33 is linear in x36. -/
lemma p33_eq_one : p33 = 1 := by
  have hcore : (0 : ℝ) < x31v ^ n9v / (km9v ^ n9v + x31v ^ n9v) :=
    div_pos (Real.rpow_pos_of_pos x31v_pos n9v) hill9_den_pos
  unfold p33
  rw [pv33x36_eq, show x36a = x36v from rfl]
  unfold v33 v33expr
  rw [mul_one]
  have h1 : k33v * (x31v ^ n9v / (km9v ^ n9v + x31v ^ n9v)) * x36v
      = k33v * x36v * (x31v ^ n9v / (km9v ^ n9v + x31v ^ n9v)) := by ring
  rw [h1]
  exact div_self (mul_ne_zero (mul_ne_zero k33v_pos.ne' x36v_pos.ne') hcore.ne')

/-! ### Round-trip reconstruction -/

lemma roundtrip (v X Y : ℝ) (hX : X ≠ 0) (hY : Y ≠ 0) :
    v / (X * Y) * X * Y = v := by
  field_simp
  ring

lemma rt29 : k29p * x28a ^ p29 * x34a ^ q29 = v29 := by
  unfold k29p
  exact roundtrip v29 (x28a ^ p29) (x34a ^ q29)
    (Real.rpow_pos_of_pos x28a_pos p29).ne' (Real.rpow_pos_of_pos x34a_pos q29).ne'

lemma rt33 : k33p * x36a ^ p33 * x31a ^ q33 = v33 := by
  unfold k33p
  exact roundtrip v33 (x36a ^ p33) (x31a ^ q33)
    (Real.rpow_pos_of_pos x36a_pos p33).ne' (Real.rpow_pos_of_pos x31a_pos q33).ne'

/-! ### First-order sensitivity of the fitted monomial -/

/-- Value algebra for the monomial sensitivity in the first variable: with
exponent `pv * x / v` (the elasticity) and rate constant `v / (x^p * y^q)`,
the derivative value of the monomial in `x` collapses to `pv`. -/
lemma monomial_sens_x (v pv x y qe : ℝ) (hv : v ≠ 0) (hx : 0 < x) (hy : 0 < y) :
    v / (x ^ (pv * x / v) * y ^ qe)
        * (pv * x / v * x ^ (pv * x / v - 1)) * y ^ qe = pv := by
  have hxp : (0 : ℝ) < x ^ (pv * x / v) := Real.rpow_pos_of_pos hx _
  have hyq : (0 : ℝ) < y ^ qe := Real.rpow_pos_of_pos hy _
  rw [Real.rpow_sub hx, Real.rpow_one]
  field_simp
  ring

/-- Value algebra for the monomial sensitivity in the second variable. -/
lemma monomial_sens_y (v pv x y pe : ℝ) (hv : v ≠ 0) (hx : 0 < x) (hy : 0 < y) :
    v / (x ^ pe * y ^ (pv * y / v)) * x ^ pe
        * (pv * y / v * y ^ (pv * y / v - 1)) = pv := by
  have hxp : (0 : ℝ) < x ^ pe := Real.rpow_pos_of_pos hx _
  have hyq : (0 : ℝ) < y ^ (pv * y / v) := Real.rpow_pos_of_pos hy _
  rw [Real.rpow_sub hy, Real.rpow_one]
  field_simp
  ring

/-! ### Claim theorems -/

/-- Claim C1: for each reaction the computed Hill-variable exponent equals
the closed-form Hill elasticity at the fixed reference point:
`p29 = n6 * km6^n6 / (km6^n6 + x28^n6)` at the v29 reference values, and
`q33 = n9 * km9^n9 / (km9^n9 + x31^n9)` at the v33 reference values. -/
theorem claim_C1 :
    p29 = n6v * km6v ^ n6v / (km6v ^ n6v + x28v ^ n6v) ∧
    q33 = n9v * km9v ^ n9v / (km9v ^ n9v + x31v ^ n9v) :=
  ⟨p29_closed, q33_closed⟩

/-- Claim C2: round-trip reconstruction — substituting the computed
exponents and new rate constant back into the power-law monomial at the same
reference point reproduces the original rate value exactly (hence in
particular within a relative tolerance of 1e-9). -/
theorem claim_C2 :
    k29p * x28a ^ p29 * x34a ^ q29 = v29 ∧
    k33p * x36a ^ p33 * x31a ^ q33 = v33 ∧
    |k29p * x28a ^ p29 * x34a ^ q29 - v29| ≤ 1e-9 * |v29| ∧
    |k33p * x36a ^ p33 * x31a ^ q33 - v33| ≤ 1e-9 * |v33| := by
  refine ⟨rt29, rt33, ?_, ?_⟩
  · rw [rt29, sub_self, abs_zero]
    positivity
  · rw [rt33, sub_self, abs_zero]
    positivity

/-- Claim C3: each rate's elasticity with respect to its linear variable
equals exactly 1: `q29 = 1` (v29 is linear in x34) and `p33 = 1` (v33 is
linear in x36). -/
theorem claim_C3 : q29 = 1 ∧ p33 = 1 :=
  ⟨q29_eq_one, p33_eq_one⟩

/-- Claim C5: first-order local agreement — the partial derivative of the
fitted monomial `k29p * x28^p29 * x34^q29` in each variable, evaluated at
the reference point, equals the corresponding evaluated partial derivative
of the original rate, and symmetrically for the second reaction. -/
theorem claim_C5 :
    deriv (fun t : ℝ => k29p * t ^ p29 * x34a ^ q29) x28a = pv29x28 ∧
    deriv (fun t : ℝ => k29p * x28a ^ p29 * t ^ q29) x34a = pv29x34 ∧
    deriv (fun t : ℝ => k33p * t ^ p33 * x31a ^ q33) x36a = pv33x36 ∧
    deriv (fun t : ℝ => k33p * x36a ^ p33 * t ^ q33) x31a = pv33x31 := by
  refine ⟨?_, ?_, ?_, ?_⟩
  · have h := ((Real.hasDerivAt_rpow_const (p := p29)
      (Or.inl x28a_pos.ne')).const_mul k29p).mul_const (x34a ^ q29)
    rw [h.deriv]
    simp only [k29p, p29, q29]
    exact monomial_sens_x v29 pv29x28 x28a x34a (pv29x34 * x34a / v29)
      v29_pos.ne' x28a_pos x34a_pos
  · have h := (Real.hasDerivAt_rpow_const (p := q29)
      (Or.inl x34a_pos.ne')).const_mul (k29p * x28a ^ p29)
    rw [h.deriv]
    simp only [k29p, p29, q29]
    exact monomial_sens_y v29 pv29x34 x28a x34a (pv29x28 * x28a / v29)
      v29_pos.ne' x28a_pos x34a_pos
  · have h := ((Real.hasDerivAt_rpow_const (p := p33)
      (Or.inl x36a_pos.ne')).const_mul k33p).mul_const (x31a ^ q33)
    rw [h.deriv]
    simp only [k33p, p33, q33]
    exact monomial_sens_x v33 pv33x36 x36a x31a (pv33x31 * x31a / v33)
      v33_pos.ne' x36a_pos x31a_pos
  · have h := (Real.hasDerivAt_rpow_const (p := q33)
      (Or.inl x31a_pos.ne')).const_mul (k33p * x36a ^ p33)
    rw [h.deriv]
    simp only [k33p, p33, q33]
    exact monomial_sens_y v33 pv33x31 x36a x31a (pv33x36 * x36a / v33)
      v33_pos.ne' x36a_pos x31a_pos

/-- Claim C6: the algorithm computes each exponent as the evaluated partial
derivative times the variable over the rate, and each new rate constant as
the rate over the monomial of the reference values. -/
theorem claim_C6 :
    p29 = deriv (fun t : ℝ => v29expr k29v t n6v km6v x34v) x28v * x28a / v29 ∧
    q29 = deriv (fun t : ℝ => v29expr k29v x28v n6v km6v t) x34v * x34a / v29 ∧
    p33 = deriv (fun t : ℝ => v33expr k33v t x31v n9v km9v) x36v * x36a / v33 ∧
    q33 = deriv (fun t : ℝ => v33expr k33v x36v t n9v km9v) x31v * x31a / v33 ∧
    k29p = v29 / (x28a ^ p29 * x34a ^ q29) ∧
    k33p = v33 / (x36a ^ p33 * x31a ^ q33) :=
  ⟨rfl, rfl, rfl, rfl, rfl, rfl⟩

/-- Claim C7 (counterexample): the output is not six blocks of the form
label line, value line, one single blank line — each `print('\n')` emits two
newline characters, so every block ends in two blank lines, and the streams
differ (already in length: 24 lines against 18). -/
theorem claim_C7_counterexample : stdout ≠ specStdout := by
  intro h
  have h2 := congrArg List.length h
  simp only [stdout, specStdout, specBlock, List.length_append,
    List.length_cons, List.length_nil] at h2
  norm_num at h2

/-- Claim C7 (amended): the script writes exactly six labeled blocks, in the
order p29, q29, p33, q33, k29p, k33p, each consisting of the label line, the
value line, and two blank lines. -/
theorem claim_C7_amended :
    stdout = srcBlock "p29 =" p29 ++ srcBlock "q29 =" q29 ++
      srcBlock "p33 =" p33 ++ srcBlock "q33 =" q33 ++
      srcBlock "k29p =" k29p ++ srcBlock "k33p =" k33p :=
  rfl

/-- Claim C8: since all reference values are strictly positive, the computed
Hill-variable exponents lie strictly between 0 and the corresponding Hill
coefficient: `0 < p29 < n6 = 2.137` and `0 < q33 < n9 = 0.9855`. -/
theorem claim_C8 : 0 < p29 ∧ p29 < n6v ∧ 0 < q33 ∧ q33 < n9v := by
  have h6 : (0 : ℝ) < x28v ^ n6v := Real.rpow_pos_of_pos x28v_pos n6v
  have h9 : (0 : ℝ) < x31v ^ n9v := Real.rpow_pos_of_pos x31v_pos n9v
  rw [p29_closed, q33_closed]
  refine ⟨?_, ?_, ?_, ?_⟩
  · exact div_pos (mul_pos n6v_pos (Real.rpow_pos_of_pos km6v_pos n6v))
      hill6_den_pos
  · rw [div_lt_iff₀ hill6_den_pos]
    have := (mul_lt_mul_left n6v_pos).2 (lt_add_of_pos_right (km6v ^ n6v) h6)
    linarith
  · exact div_pos (mul_pos n9v_pos (Real.rpow_pos_of_pos km9v_pos n9v))
      hill9_den_pos
  · rw [div_lt_iff₀ hill9_den_pos]
    have := (mul_lt_mul_left n9v_pos).2 (lt_add_of_pos_right (km9v ^ n9v) h9)
    linarith

/-- Claim C9: the numeric literals reassigned to x28, x34, x36, x31 after the
symbolic phase are exactly the values substituted into the partial
derivatives and the original rate expressions, so every elasticity and new
rate constant is evaluated at one consistent operating point. -/
theorem claim_C9 : x28a = x28v ∧ x34a = x34v ∧ x36a = x36v ∧ x31a = x31v :=
  ⟨rfl, rfl, rfl, rfl⟩

/-- Claim C10: the script takes no input of any kind, so any two runs — for
arbitrary command-line arguments, environments and input streams — produce
identical standard output (and hence identical values for the six printed
quantities). -/
theorem claim_C10 :
    ∀ (a₁ a₂ : List String) (e₁ e₂ : String → Option String)
      (s₁ s₂ : List String), runScript a₁ e₁ s₁ = runScript a₂ e₂ s₂ :=
  fun _ _ _ _ _ _ => rfl

end PowerLawApprox
